import Mathlib

/-!
Shallow embedding of the Statful-AI-Chatbot memory-management core:
`app/core/tokens.py`, `app/services/memory/memory.py`,
`app/services/chat_service.py` (the `ask` orchestration), and the
Redis-backed store semantics of `app/db/redis_store.py`.

Python strings are modelled as Lean `String` (a list of Unicode code
points, matching Python's `len` and slicing on `str`), Python `int` as
`Int`, `Optional[T]` as `Option T`.  External collaborators (the LLM
backends and the per-session Redis keys) are modelled as pure data:
a backend is a pair of functions `generate`/`summarize`, and the store
state for the addressed session is a message log plus a summary string.
Every repository/backend call the orchestrator makes is recorded in an
event trace so that "no store call" / "summarize never invoked" claims
are directly expressible.
-/

namespace Chatbot

/-- Python's `str.strip()` whitespace class (the ASCII part, which is all
the repository's literals use): space, tab, LF, CR, VT, FF. -/
def pyIsSpace (c : Char) : Bool :=
  c = ' ' || c = '\t' || c = '\n' || c = '\r' || c = '\x0b' || c = '\x0c'

/-- Python `str.strip()` on the underlying character list: drop leading and
trailing whitespace. -/
def stripList (l : List Char) : List Char :=
  ((l.dropWhile pyIsSpace).reverse.dropWhile pyIsSpace).reverse

/-- Python `s.strip()`. -/
def pyStrip (s : String) : String :=
  ⟨stripList s.data⟩

/-- Python `s.lower()` (ASCII case folding, which is all the selectors
use), applied characterwise. -/
def pyLower (s : String) : String :=
  ⟨s.data.map Char.toLower⟩

/-- Python `a or b` on strings: the empty string is falsy. -/
def pyOrStr (a b : String) : String :=
  if a = "" then b else a

/-- Python `a or b` where `a : Optional[int]`: both `None` and `0` are
falsy and fall through to `b`. -/
def pyOrInt (a : Option Int) (b : Int) : Int :=
  match a with
  | none => b
  | some v => if v = 0 then b else v

/-- Embeds `app/core/tokens.py::estimate_tokens`.
`if not text or not text.strip(): return 0`; else `max(1, len(text) // 4)`. -/
def estimate_tokens (text : String) : Nat :=
  if text = "" ∨ pyStrip text = "" then 0
  else max 1 (text.length / 4)

/-- Message role (`Literal["user", "assistant"]`). -/
inductive Role where
  | user
  | assistant
deriving DecidableEq

/-- Python `role.upper()` on the two role literals. -/
def Role.upper : Role → String
  | .user => "USER"
  | .assistant => "ASSISTANT"

/-- Embeds `app/services/memory/memory.py::Message`. -/
structure Message where
  role : Role
  content : String
deriving DecidableEq

/-- Embeds `app/services/memory/memory.py::ChatSession`. -/
structure ChatSession where
  summary : String := ""
  messages : List Message := []
deriving DecidableEq

/-- Embeds `ChatSession.transcript`: optional stripped-summary block, then a
"RECENT MESSAGES:" block with one `ROLE: content` line per message,
joined by newlines and stripped. -/
def ChatSession.transcript (s : ChatSession) : String :=
  let parts : List String :=
    (if pyStrip s.summary ≠ "" then ["SUMMARY SO FAR:\n" ++ pyStrip s.summary] else [])
    ++ (if s.messages ≠ [] then
          "RECENT MESSAGES:" :: s.messages.map (fun m => m.role.upper ++ ": " ++ m.content)
        else [])
  pyStrip (String.intercalate "\n" parts)

/-- Embeds `memory.py::apply_sliding_window`.  The Python mutates the session in
place; the embedding returns the updated session. -/
def apply_sliding_window (session : ChatSession) (window_size : Int) : ChatSession :=
  if window_size ≤ 0 then { session with messages := [] }
  else if (session.messages.length : Int) > window_size then
    { session with
      messages := session.messages.drop (session.messages.length - window_size.toNat) }
  else session

/-- An LLM backend (`providers.py::LLMProvider` capability surface):
its reported name plus its two pure request/response capabilities. -/
structure Provider where
  name : String
  generate : String → String
  summarize : String → String

/-- A repository/backend call made during one `ask` run. -/
inductive Event where
  | getSummary (sid : String)
  | getLastMessages (sid : String) (limit : Int)
  | setSummary (sid : String) (text : String)
  | trimMessages (sid : String) (keepLast : Int)
  | appendMessages (sid : String) (msgs : List Message)
  | generate (pname : String) (prompt : String)
  | summarize (pname : String) (text : String)
deriving DecidableEq

/-- Embeds `memory.py::apply_rolling_summary`, returning the updated session and
the list of backend calls it made (`[]` or one `summarize` call).

Slicing note: after `keep_last = max(0, keep_last)` the Python computes
`older = session.messages[:-keep_last] if keep_last < len(session.messages) else []`.
When `keep_last = 0` the slice is `messages[:-0]`, i.e. `messages[:0] = []`,
so `older` is empty and the function returns without summarizing; the
embedding reproduces that exactly. -/
def apply_rolling_summary (session : ChatSession) (provider : Provider)
    (max_messages keep_last : Int) : ChatSession × List Event :=
  if max_messages ≤ 0 then (session, [])
  else if (session.messages.length : Int) ≤ max_messages then (session, [])
  else
    let k := keep_last.toNat
    let msgs := session.messages
    let older : List Message :=
      if k < msgs.length then
        (if k = 0 then [] else msgs.take (msgs.length - k))
      else []
    let recent : List Message :=
      if 0 < k then msgs.drop (msgs.length - k) else []
    if older = [] then (session, [])
    else
      let older_transcript :=
        String.intercalate "\n" (older.map (fun m => m.role.upper ++ ": " ++ m.content))
      let combined :=
        if pyStrip session.summary ≠ "" then
          "Existing summary:\n" ++ pyStrip session.summary
            ++ "\n\nNew messages to incorporate:\n" ++ older_transcript
        else older_transcript
      ({ summary := pyStrip (provider.summarize combined), messages := recent },
       [Event.summarize provider.name combined])

/-- The persisted state under this session's two Redis keys
(`chat:session:{id}:messages`, `chat:session:{id}:summary`). -/
structure SessionState where
  log : List Message
  summary : String
deriving DecidableEq

/-- Embeds `redis_store.py::ChatRepository.get_last_messages`:
`LRANGE key -limit -1` — Redis resolves the negative start index
`-limit` to `max(0, len + (-limit))` (and a non-negative start is used
as-is, so `limit = 0` yields the whole list, `limit < 0` drops
`-limit` entries from the head). -/
def get_last_messages (log : List Message) (limit : Int) : List Message :=
  let len : Int := log.length
  let start : Int := -limit
  let startIdx : Int := if start < 0 then max 0 (len + start) else start
  log.drop startIdx.toNat

/-- Embeds `redis_store.py::ChatRepository.get_summary`: the stored value,
stripped (`""` when absent). -/
def get_summary (stored : String) : String :=
  pyStrip stored

/-- Embeds `redis_store.py::ChatRepository.trim_messages`: `keep_last <= 0`
deletes the key; otherwise `LTRIM key -keep_last -1` keeps the most
recent `keep_last` entries. -/
def trim_messages (log : List Message) (keep_last : Int) : List Message :=
  if keep_last ≤ 0 then []
  else
    let len : Int := log.length
    log.drop (max 0 (len - keep_last)).toNat

/-- Embeds `app/core/config.py::Settings` (the fields the orchestrator can
observe; `default_provider` is carried to state the independence claim). -/
structure Settings where
  google_api_key : String
  default_provider : String
  memory_strategy : String
  fetch_last_n : Int
  max_tokens_before_summarize : Int
  max_messages : Int
  keep_last : Int
  window_size : Int

/-- The error taxonomy visible to the orchestrator: `ValueError` is the
validation/client-fault class (mapped to HTTP 400 by the route). -/
inductive AskError where
  | validation (msg : String)
deriving DecidableEq

/-- Embeds `chat_service.py::ChatResult`. -/
structure ChatResult where
  provider : String
  reply : String
  session_id : Option String
deriving DecidableEq

/-- Embeds `ChatService._get_provider` (with `_get_gemini`'s credential check
inlined, as the source performs it on the gemini branch):
lowercase+strip the selector; `"gemini"`/`""` → the gemini backend
(requiring a non-empty `GOOGLE_API_KEY`), `"ollama"`/`"local"` → the
ollama backend, anything else → `ValueError`. -/
def get_provider (st : Settings) (gem oll : Provider) (provider : String) :
    Except AskError (String × Provider) :=
  let p := pyStrip (pyLower provider)
  if p = "gemini" ∨ p = "" then
    if st.google_api_key = "" then
      .error (.validation "Gemini requires GOOGLE_API_KEY. Set GOOGLE_API_KEY=your_key in .env (project root) and restart the server.")
    else .ok ("gemini", gem)
  else if p = "ollama" ∨ p = "local" then .ok ("ollama", oll)
  else .error (.validation "Provider must be 'gemini' or 'ollama'")

/-- Embeds `mem = (memory or settings.memory_strategy or "rolling")`, then the
validity fallback: anything outside `rolling | window | none` becomes
`rolling`. -/
def resolveMemory (memory : Option String) (st : Settings) : String :=
  let m := pyOrStr (memory.getD "") (pyOrStr st.memory_strategy "rolling")
  if m = "rolling" ∨ m = "window" ∨ m = "none" then m else "rolling"

/-- Python truthiness test `not session_id` on `Optional[str]`. -/
def sessionIdFalsy : Option String → Bool
  | none => true
  | some s => s = ""

/-- The body of `ChatService.ask` after provider resolution succeeded
(`pname`, `llm` being the resolved name/backend).  Returns the result,
the final per-session store state, and the ordered trace of
repository/backend calls. -/
def askWithProvider (st : Settings) (pname : String) (llm : Provider)
    (store : SessionState) (prompt : String) (session_id : Option String)
    (memory : Option String) (max_messages keep_last window_size : Option Int) :
    Except AskError ChatResult × SessionState × List Event :=
  let mem := resolveMemory memory st
  if sessionIdFalsy session_id = true ∨ mem = "none" then
    (.ok ⟨pname, llm.generate prompt, session_id⟩, store, [Event.generate pname prompt])
  else
    let sid := session_id.getD ""
    let fetchN := st.fetch_last_n
    let fetchedSummary := get_summary store.summary
    let fetched := get_last_messages store.log fetchN
    let userMsg : Message := ⟨Role.user, prompt⟩
    let session0 : ChatSession := ⟨fetchedSummary, fetched ++ [userMsg]⟩
    let maxTokens := st.max_tokens_before_summarize
    let keepLastN := pyOrInt keep_last st.keep_last
    let maxMsg := pyOrInt max_messages st.max_messages
    let winSize := pyOrInt window_size st.window_size
    let e0 : List Event := [Event.getSummary sid, Event.getLastMessages sid fetchN]
    let step :=
      if mem = "rolling" then
        if (estimate_tokens session0.transcript : Int) > maxTokens then
          let r := apply_rolling_summary session0 llm maxMsg keepLastN
          (r.1, SessionState.mk (trim_messages store.log keepLastN) r.1.summary,
           r.2 ++ [Event.setSummary sid r.1.summary, Event.trimMessages sid keepLastN])
        else (session0, store, ([] : List Event))
      else if mem = "window" then
        (apply_sliding_window session0 winSize, store, ([] : List Event))
      else (session0, store, ([] : List Event))
    let session1 := step.1
    let store1 := step.2.1
    let e1 := step.2.2
    let compiled := pyStrip session1.transcript ++ "\n\nASSISTANT:"
    let reply := pyStrip (llm.generate compiled)
    let assistantMsg : Message := ⟨Role.assistant, reply⟩
    let store2 : SessionState := { store1 with log := store1.log ++ [userMsg, assistantMsg] }
    let e2 : List Event :=
      [Event.generate pname compiled, Event.appendMessages sid [userMsg, assistantMsg]]
    let final :=
      if mem = "window" then
        (SessionState.mk (trim_messages store2.log winSize) store2.summary,
         [Event.trimMessages sid winSize])
      else (store2, ([] : List Event))
    (.ok ⟨pname, reply, session_id⟩, final.1, e0 ++ e1 ++ e2 ++ final.2)

/-- Embeds `ChatService.ask`: resolve the provider first (a `ValueError` there
aborts before any store or backend call), then run the body. -/
def ask (st : Settings) (gem oll : Provider) (store : SessionState)
    (prompt providerSel : String) (session_id : Option String)
    (memory : Option String) (max_messages keep_last window_size : Option Int) :
    Except AskError ChatResult × SessionState × List Event :=
  match get_provider st gem oll providerSel with
  | .error e => (.error e, store, [])
  | .ok pr =>
      askWithProvider st pr.1 pr.2 store prompt session_id memory
        max_messages keep_last window_size

instance {α β : Type} [DecidableEq α] [DecidableEq β] : DecidableEq (Except α β) := fun
  | .error a, .error b =>
      if h : a = b then .isTrue (by rw [h]) else .isFalse (by intro he; cases he; exact h rfl)
  | .error _, .ok _ => .isFalse (by intro h; cases h)
  | .ok _, .error _ => .isFalse (by intro h; cases h)
  | .ok a, .ok b =>
      if h : a = b then .isTrue (by rw [h]) else .isFalse (by intro he; cases he; exact h rfl)

/-- A concrete mock backend used by witnesses and counterexamples:
`generate` echoes its prompt, `summarize` wraps its input. -/
def echoProvider : Provider :=
  ⟨"ollama", fun p => p, fun t => "SUM(" ++ t ++ ")"⟩

/-- A second concrete mock backend. -/
def gemMock : Provider :=
  ⟨"gemini", fun p => "G:" ++ p, fun t => "GS:" ++ t⟩

/-! ### Helper lemmas -/

theorem ask_eq_of_provider (st : Settings) (gem oll : Provider) (store : SessionState)
    (prompt sel : String) (sid : Option String) (mem : Option String)
    (mm kl ws : Option Int) (pn : String) (llm : Provider)
    (hp : get_provider st gem oll sel = .ok (pn, llm)) :
    ask st gem oll store prompt sel sid mem mm kl ws =
      askWithProvider st pn llm store prompt sid mem mm kl ws := by
  unfold ask
  rw [hp]

theorem stripList_eq_nil_iff (l : List Char) :
    stripList l = [] ↔ ∀ c ∈ l, pyIsSpace c := by
  unfold stripList
  rw [List.reverse_eq_nil_iff, List.dropWhile_eq_nil_iff]
  constructor
  · intro h c hc
    rw [← List.takeWhile_append_dropWhile pyIsSpace l] at hc
    rcases List.mem_append.mp hc with hc | hc
    · exact List.mem_takeWhile_imp hc
    · exact h c (List.mem_reverse.mpr hc)
  · intro h c hc
    rw [List.mem_reverse] at hc
    have : l.dropWhile pyIsSpace = [] := List.dropWhile_eq_nil_iff.mpr h
    rw [this] at hc
    cases hc

theorem pyStrip_eq_empty_iff (s : String) :
    pyStrip s = "" ↔ ∀ c ∈ s.data, pyIsSpace c := by
  unfold pyStrip
  rw [← stripList_eq_nil_iff]
  constructor
  · intro h; exact congrArg String.data h
  · intro h; rw [h]

theorem pyIsSpace_toLower (c : Char) (h : pyIsSpace c) : Char.toLower c = c := by
  have h' : c = ' ' ∨ c = '\t' ∨ c = '\n' ∨ c = '\r' ∨ c = '\x0b' ∨ c = '\x0c' := by
    simp only [pyIsSpace, Bool.or_eq_true, decide_eq_true_eq] at h
    tauto
  rcases h' with rfl | rfl | rfl | rfl | rfl | rfl <;> decide

theorem get_provider_blank (st : Settings) (gem oll : Provider) (sel : String)
    (h : ∀ c ∈ sel.data, pyIsSpace c) :
    get_provider st gem oll sel = get_provider st gem oll "gemini" := by
  have hsp : ∀ c ∈ (pyLower sel).data, pyIsSpace c := by
    intro c hc
    rcases List.mem_map.mp hc with ⟨a, ha, rfl⟩
    have hsa := h a ha
    rw [pyIsSpace_toLower a hsa]
    exact hsa
  have hp : pyStrip (pyLower sel) = "" := (pyStrip_eq_empty_iff _).mpr hsp
  have hg : pyStrip (pyLower "gemini") = "gemini" := by decide
  simp [get_provider, hp, hg]

theorem get_last_messages_pos (log : List Message) (n : Int) (h : 0 < n) :
    get_last_messages log n = log.drop (log.length - n.toNat) := by
  unfold get_last_messages
  dsimp only
  rw [if_pos (by omega : -n < 0)]
  congr 1
  omega

theorem trim_messages_pos (log : List Message) (k : Int) (h : 0 < k) :
    trim_messages log k = log.drop (log.length - k.toNat) := by
  unfold trim_messages
  dsimp only
  rw [if_neg (by omega : ¬ k ≤ 0)]
  congr 1
  omega

theorem window5 (l : List Message) (u : Message) (s : String) (d : Nat)
    (hd : d ≤ 7) (hl : l.length = 12) :
    apply_sliding_window ⟨s, l.drop d ++ [u]⟩ 5 = ⟨s, l.drop 8 ++ [u]⟩ := by
  unfold apply_sliding_window
  have hlen1 : (l.drop d ++ [u]).length = 13 - d := by
    simp [List.length_drop, hl]; omega
  rw [if_neg (by omega : ¬ (5:Int) ≤ 0), if_pos (by rw [hlen1]; exact_mod_cast by omega)]
  have h5 : (5:Int).toNat = 5 := rfl
  rw [hlen1, h5]
  congr 1
  rw [List.drop_append_eq_append_drop, List.drop_drop]
  have h1 : d + (13 - d - 5) = 8 := by omega
  have h2 : 13 - d - 5 - (l.drop d).length = 0 := by
    simp [List.length_drop, hl]; omega
  rw [h1, h2]
  rfl

theorem trim14to5 (l : List Message) (u a : Message) (hl : l.length = 12) :
    trim_messages (l ++ [u, a]) 5 = l.drop 9 ++ [u, a] := by
  rw [trim_messages_pos _ 5 (by omega)]
  have hlen : (l ++ [u, a]).length = 14 := by simp [hl]
  have h5 : (5:Int).toNat = 5 := rfl
  rw [hlen, h5]
  rw [List.drop_append_eq_append_drop]
  have h2 : 14 - 5 - l.length = 0 := by omega
  rw [h2]
  rfl

/-! ### Claim theorems -/

/-- C2: for every session and every `window_size`, `apply_sliding_window`
leaves `summary` unchanged and sets `messages` to the empty list when
`window_size <= 0`, and otherwise to the original list's trailing slice of
length `min(original_len, window_size)` in original order (so no change
when the original count is already at most `window_size`). -/
theorem apply_sliding_window_spec (s : ChatSession) (window_size : Int) :
    (apply_sliding_window s window_size).summary = s.summary ∧
    (apply_sliding_window s window_size).messages =
      (if window_size ≤ 0 then []
       else s.messages.drop (s.messages.length - window_size.toNat)) ∧
    (apply_sliding_window s window_size).messages.length =
      (if window_size ≤ 0 then 0 else min s.messages.length window_size.toNat) := by
  unfold apply_sliding_window
  split_ifs with h1 h2
  · simp
  · refine ⟨rfl, rfl, ?_⟩
    simp only [List.length_drop]
    omega
  · refine ⟨rfl, ?_, ?_⟩
    · have : s.messages.length - window_size.toNat = 0 := by omega
      simp [this]
    · omega

/-- C6: `apply_rolling_summary` is a no-op (session returned unchanged and
no backend call made, in particular `summarize` is not invoked) whenever
`max_messages <= 0`, or the current message count is at most
`max_messages`, or the clamped `keep_last` is at least the message count
(which makes the `older` partition empty). -/
theorem apply_rolling_summary_noop (s : ChatSession) (p : Provider) (mm kl : Int)
    (h : mm ≤ 0 ∨ (s.messages.length : Int) ≤ mm ∨ s.messages.length ≤ kl.toNat) :
    apply_rolling_summary s p mm kl = (s, []) := by
  unfold apply_rolling_summary
  by_cases h1 : mm ≤ 0
  · rw [if_pos h1]
  · rw [if_neg h1]
    by_cases h2 : (s.messages.length : Int) ≤ mm
    · rw [if_pos h2]
    · rw [if_neg h2]
      have hk : ¬ (kl.toNat < s.messages.length) := by
        rcases h with h | h | h
        · exact absurd h h1
        · exact absurd h h2
        · omega
      simp [hk]

/-- C6 witness: a session of one message with `max_messages = 5` (count at
most `max_messages`) is left unchanged with no backend call. -/
theorem apply_rolling_summary_noop_witness :
    apply_rolling_summary ⟨"", [⟨Role.user, "hi"⟩]⟩ ⟨"gemini", fun _ => "G", fun _ => "S"⟩ 5 2
      = (⟨"", [⟨Role.user, "hi"⟩]⟩, []) :=
  apply_rolling_summary_noop ⟨"", [⟨Role.user, "hi"⟩]⟩ ⟨"gemini", fun _ => "G", fun _ => "S"⟩ 5 2
    (Or.inr (Or.inl (by decide)))

/-- C1 (code bug evaluation): with two messages, `max_messages = 1` and
`keep_last = 0` — so `message_count > max_messages > 0` and
`0 <= keep_last < message_count` — the claim requires the message list to
become the trailing `0` messages (empty) and the summary to become the
non-empty stripped `summarize` output; but the code computes
`older = messages[:-0] = []` and returns without summarizing: the session
is unchanged and the backend is never called. -/
theorem apply_rolling_summary_keep_last_zero_noop :
    apply_rolling_summary ⟨"", [⟨Role.user, "hello"⟩, ⟨Role.assistant, "world"⟩]⟩
        ⟨"gemini", fun _ => "G", fun _ => " A compact summary. "⟩ 1 0
      = (⟨"", [⟨Role.user, "hello"⟩, ⟨Role.assistant, "world"⟩]⟩, []) := by
  decide

/-- C9: the length estimator returns `0` on every empty or whitespace-only
input, is non-negative (its codomain is `Nat`, as the Python function
returns `0` or `max(1, ...)`), and is monotone non-decreasing under
extension by any suffix.  Determinism is immediate: it is a pure function
of its argument. -/
theorem estimate_tokens_spec :
    (∀ t : String, (∀ c ∈ t.data, pyIsSpace c) → estimate_tokens t = 0) ∧
    (∀ t : String, 0 ≤ estimate_tokens t) ∧
    (∀ t s : String, estimate_tokens t ≤ estimate_tokens (t ++ s)) := by
  refine ⟨?_, fun _ => Nat.zero_le _, ?_⟩
  · intro t h
    have : pyStrip t = "" := (pyStrip_eq_empty_iff t).mpr h
    unfold estimate_tokens
    simp [this]
  · intro t s
    unfold estimate_tokens
    by_cases h1 : (t = "" ∨ pyStrip t = "")
    · simp [h1]
    · by_cases h2 : ((t ++ s) = "" ∨ pyStrip (t ++ s) = "")
      · exfalso
        rcases h2 with h2 | h2
        · apply h1
          left
          have hts : t.data ++ s.data = [] := by
            rw [← String.data_append]; exact congrArg String.data h2
          have ht : t.data = [] := (List.append_eq_nil.mp hts).1
          show String.mk t.data = ""
          rw [ht]
        · apply h1
          right
          rw [pyStrip_eq_empty_iff] at h2 ⊢
          intro c hc
          exact h2 c (by rw [String.data_append]; exact List.mem_append_left _ hc)
      · rw [if_neg h1, if_neg h2]
        have hlen : t.length ≤ (t ++ s).length := by
          rw [String.length_append]; omega
        exact max_le_max (le_refl 1) (Nat.div_le_div_right hlen)

/-- C7: when the provider selector, lowercased and stripped, is none of
the recognized identifiers (`"gemini"`, `""`, `"ollama"`, `"local"`), the
ask operation fails with a validation error (the `ValueError` class, which
the route maps to a 400 client fault, distinguishable from generic
backend/store faults), the store state is unchanged, and the call trace is
empty: no backend `generate`/`summarize` call and no store read or write
was made. -/
theorem ask_unknown_provider (st : Settings) (gem oll : Provider) (store : SessionState)
    (prompt sel : String) (sid : Option String) (mem : Option String) (mm kl ws : Option Int)
    (h1 : pyStrip (pyLower sel) ≠ "gemini") (h2 : pyStrip (pyLower sel) ≠ "")
    (h3 : pyStrip (pyLower sel) ≠ "ollama") (h4 : pyStrip (pyLower sel) ≠ "local") :
    ask st gem oll store prompt sel sid mem mm kl ws =
      (.error (.validation "Provider must be 'gemini' or 'ollama'"), store, []) := by
  have hA : ¬ (pyStrip (pyLower sel) = "gemini" ∨ pyStrip (pyLower sel) = "") :=
    not_or.mpr ⟨h1, h2⟩
  have hB : ¬ (pyStrip (pyLower sel) = "ollama" ∨ pyStrip (pyLower sel) = "local") :=
    not_or.mpr ⟨h3, h4⟩
  simp only [ask, get_provider]
  rw [if_neg hA, if_neg hB]

/-- C7 witness: `provider="chatgpt"` is rejected with the validation
error, leaving the store untouched and the trace empty. -/
theorem ask_unknown_provider_witness :
    ask ⟨"key", "gemini", "rolling", 10, 4000, 10, 4, 10⟩ gemMock echoProvider
        ⟨[⟨Role.user, "q"⟩], "old"⟩ "hi" "chatgpt" (some "s1") none none none none =
      (.error (.validation "Provider must be 'gemini' or 'ollama'"),
       ⟨[⟨Role.user, "q"⟩], "old"⟩, []) :=
  ask_unknown_provider ⟨"key", "gemini", "rolling", 10, 4000, 10, 4, 10⟩ gemMock echoProvider
    ⟨[⟨Role.user, "q"⟩], "old"⟩ "hi" "chatgpt" (some "s1") none none none none
    (by decide) (by decide) (by decide) (by decide)

/-- C8: whenever no session id is supplied (absent or empty string) or the
effective memory mode is `none`, `ask` calls the resolved backend's
`generate` directly on the raw prompt, performs no store read or write
(the trace holds exactly the one `generate` event and the store state is
returned unchanged), and echoes the given session id in the result. -/
theorem ask_stateless (st : Settings) (gem oll : Provider) (store : SessionState)
    (prompt sel : String) (sid : Option String) (mem : Option String)
    (mm kl ws : Option Int) (pn : String) (llm : Provider)
    (hp : get_provider st gem oll sel = .ok (pn, llm))
    (h : sessionIdFalsy sid = true ∨ resolveMemory mem st = "none") :
    ask st gem oll store prompt sel sid mem mm kl ws =
      (.ok ⟨pn, llm.generate prompt, sid⟩, store, [Event.generate pn prompt]) := by
  rw [ask_eq_of_provider st gem oll store prompt sel sid mem mm kl ws pn llm hp]
  unfold askWithProvider
  rw [if_pos h]

/-- C8 witness: with no session id supplied, the result echoes the absent
session id, the store is untouched, and the only call is `generate` on the
raw prompt. -/
theorem ask_stateless_witness :
    ask ⟨"key", "gemini", "rolling", 10, 4000, 10, 4, 10⟩ gemMock echoProvider
        ⟨[⟨Role.user, "q"⟩], "old"⟩ "hi" "ollama" none none none none none =
      (.ok ⟨"ollama", "hi", none⟩, ⟨[⟨Role.user, "q"⟩], "old"⟩,
       [Event.generate "ollama" "hi"]) :=
  ask_stateless ⟨"key", "gemini", "rolling", 10, 4000, 10, 4, 10⟩ gemMock echoProvider
    ⟨[⟨Role.user, "q"⟩], "old"⟩ "hi" "ollama" none none none none none
    "ollama" echoProvider rfl (Or.inl rfl)

/-- C10: the ask operation never consults the configured default provider
identifier — two runs with identical arguments whose configurations
differ only in `default_provider` produce identical results, traces and
store states — and an empty or whitespace-only provider selector is
resolved exactly as the selector `"gemini"` is (the gemini backend,
subject only to its credential check), regardless of configuration. -/
theorem ask_default_provider_independent :
    (∀ (st : Settings) (d : String) (gem oll : Provider) (store : SessionState)
       (prompt sel : String) (sid mem : Option String) (mm kl ws : Option Int),
       ask { st with default_provider := d } gem oll store prompt sel sid mem mm kl ws =
         ask st gem oll store prompt sel sid mem mm kl ws) ∧
    (∀ (st : Settings) (gem oll : Provider) (sel : String),
       (∀ c ∈ sel.data, pyIsSpace c) →
       get_provider st gem oll sel = get_provider st gem oll "gemini") ∧
    (∀ (st : Settings) (gem oll : Provider) (sel : String),
       (∀ c ∈ sel.data, pyIsSpace c) → st.google_api_key ≠ "" →
       get_provider st gem oll sel = .ok ("gemini", gem)) := by
  refine ⟨?_, fun st gem oll sel h => get_provider_blank st gem oll sel h, ?_⟩
  · intro st d gem oll store prompt sel sid mem mm kl ws
    cases st
    rfl
  · intro st gem oll sel h hkey
    rw [get_provider_blank st gem oll sel h]
    have hg : pyStrip (pyLower "gemini") = "gemini" := by decide
    simp [get_provider, hg, hkey]

/-- C10 witness: changing only the configured default provider does not
change the result of a concrete call, and a whitespace-only selector
resolves like `"gemini"` does. -/
theorem ask_default_provider_independent_witness :
    ask ⟨"key", "ollama", "rolling", 10, 4000, 10, 4, 10⟩ gemMock echoProvider
        ⟨[], ""⟩ "hi" "gemini" none none none none none =
      ask ⟨"key", "gemini", "rolling", 10, 4000, 10, 4, 10⟩ gemMock echoProvider
        ⟨[], ""⟩ "hi" "gemini" none none none none none ∧
    get_provider ⟨"key", "gemini", "rolling", 10, 4000, 10, 4, 10⟩ gemMock echoProvider " " =
      .ok ("gemini", gemMock) :=
  ⟨ask_default_provider_independent.1 ⟨"key", "gemini", "rolling", 10, 4000, 10, 4, 10⟩
      "ollama" gemMock echoProvider ⟨[], ""⟩ "hi" "gemini" none none none none none,
   ask_default_provider_independent.2.2 ⟨"key", "gemini", "rolling", 10, 4000, 10, 4, 10⟩
      gemMock echoProvider " " (by decide) (by decide)⟩

/-- C4 counterexample: the claim "an explicitly supplied override value of
0 is used as 0" is false.  With the override `window_size = some 0` in
window mode, the code trims the store to the configuration default (here
1), not to 0: the trace contains `trimMessages "s" 1` and no
`trimMessages "s" 0`, the final log is non-empty (it would be empty had
the effective window size been 0), and the outcome changes when only the
configuration default `window_size` is changed from 1 to 3 — impossible
if the override 0 were in effect. -/
theorem ask_override_zero_counterexample :
    ((ask ⟨"key", "gemini", "window", 10, 4000, 10, 4, 1⟩ gemMock echoProvider
        ⟨[⟨Role.user, "a"⟩, ⟨Role.assistant, "b"⟩], ""⟩ "hi" "ollama" (some "s")
        (some "window") none none (some 0)).2.2.contains (Event.trimMessages "s" 1) = true) ∧
    ((ask ⟨"key", "gemini", "window", 10, 4000, 10, 4, 1⟩ gemMock echoProvider
        ⟨[⟨Role.user, "a"⟩, ⟨Role.assistant, "b"⟩], ""⟩ "hi" "ollama" (some "s")
        (some "window") none none (some 0)).2.2.contains (Event.trimMessages "s" 0) = false) ∧
    ((ask ⟨"key", "gemini", "window", 10, 4000, 10, 4, 1⟩ gemMock echoProvider
        ⟨[⟨Role.user, "a"⟩, ⟨Role.assistant, "b"⟩], ""⟩ "hi" "ollama" (some "s")
        (some "window") none none (some 0)).2.1.log ≠ []) ∧
    ((ask ⟨"key", "gemini", "window", 10, 4000, 10, 4, 1⟩ gemMock echoProvider
        ⟨[⟨Role.user, "a"⟩, ⟨Role.assistant, "b"⟩], ""⟩ "hi" "ollama" (some "s")
        (some "window") none none (some 0)).2.1 ≠
     (ask ⟨"key", "gemini", "window", 10, 4000, 10, 4, 3⟩ gemMock echoProvider
        ⟨[⟨Role.user, "a"⟩, ⟨Role.assistant, "b"⟩], ""⟩ "hi" "ollama" (some "s")
        (some "window") none none (some 0)).2.1) := by
  refine ⟨by decide, by decide, by decide, by decide⟩

/-- C4 (amended): the effective `max_messages`, `keep_last` and
`window_size` are resolved by Python `or` — the override is used when it
is given and non-zero, and the configuration default is used otherwise (in
particular an explicit override of 0 falls back to the configuration
default).  `ask`'s behavior depends on the three overrides only through
this resolution: any two override triples with equal resolved values give
identical results, store states and traces. -/
theorem ask_overrides_resolved_by_or (st : Settings) (gem oll : Provider)
    (store : SessionState) (prompt sel : String) (sid mem : Option String)
    (mm mm' kl kl' ws ws' : Option Int)
    (hm : pyOrInt mm st.max_messages = pyOrInt mm' st.max_messages)
    (hk : pyOrInt kl st.keep_last = pyOrInt kl' st.keep_last)
    (hw : pyOrInt ws st.window_size = pyOrInt ws' st.window_size) :
    ask st gem oll store prompt sel sid mem mm kl ws =
      ask st gem oll store prompt sel sid mem mm' kl' ws' := by
  unfold ask
  cases get_provider st gem oll sel with
  | error e => rfl
  | ok pr => simp only [askWithProvider, hm, hk, hw]

/-- C4 amended-claim witness: an override of `some 0` resolves like an
absent override, so the two calls coincide (config default 7). -/
theorem ask_overrides_resolved_by_or_witness :
    ask ⟨"key", "gemini", "window", 10, 4000, 10, 4, 7⟩ gemMock echoProvider
        ⟨[⟨Role.user, "a"⟩], ""⟩ "hi" "ollama" (some "s") (some "window")
        none none (some 0) =
      ask ⟨"key", "gemini", "window", 10, 4000, 10, 4, 7⟩ gemMock echoProvider
        ⟨[⟨Role.user, "a"⟩], ""⟩ "hi" "ollama" (some "s") (some "window")
        none none none :=
  ask_overrides_resolved_by_or ⟨"key", "gemini", "window", 10, 4000, 10, 4, 7⟩
    gemMock echoProvider ⟨[⟨Role.user, "a"⟩], ""⟩ "hi" "ollama" (some "s") (some "window")
    none none none none (some 0) none (by decide) (by decide) (by decide)

/-- C3: in the stateful path with effective memory mode `rolling`, the
rolling-summary strategy runs and the store receives `setSummary` (the
session's new summary, a full overwrite) followed by `trimMessages` with
the effective `keep_last` exactly when the estimated length of the session
transcript (after appending the new user message) exceeds the configured
threshold; otherwise the run performs no `summarize`, `setSummary` or
`trimMessages` at all — the trace is exactly fetch, generate, append.
Both branches are stated as full equalities of result, final store state
and trace, so each direction of the iff is read off the corresponding
branch. -/
theorem ask_rolling_threshold_gate (st : Settings) (gem oll : Provider) (store : SessionState)
    (prompt sel : String) (session_id : Option String) (memory : Option String)
    (mm kl ws : Option Int) (pn : String) (llm : Provider)
    (hp : get_provider st gem oll sel = .ok (pn, llm))
    (hmem : resolveMemory memory st = "rolling")
    (hsid : sessionIdFalsy session_id = false) :
    (let sid := session_id.getD ""
     let userMsg : Message := ⟨Role.user, prompt⟩
     let session0 : ChatSession :=
       ⟨get_summary store.summary, get_last_messages store.log st.fetch_last_n ++ [userMsg]⟩
     let klEff := pyOrInt kl st.keep_last
     if (estimate_tokens session0.transcript : Int) > st.max_tokens_before_summarize then
       let r := apply_rolling_summary session0 llm (pyOrInt mm st.max_messages) klEff
       let compiled := pyStrip r.1.transcript ++ "\n\nASSISTANT:"
       let reply := pyStrip (llm.generate compiled)
       ask st gem oll store prompt sel session_id memory mm kl ws =
         (.ok ⟨pn, reply, session_id⟩,
          ⟨trim_messages store.log klEff ++ [userMsg, ⟨Role.assistant, reply⟩], r.1.summary⟩,
          [Event.getSummary sid, Event.getLastMessages sid st.fetch_last_n] ++ r.2 ++
            [Event.setSummary sid r.1.summary, Event.trimMessages sid klEff,
             Event.generate pn compiled,
             Event.appendMessages sid [userMsg, ⟨Role.assistant, reply⟩]])
     else
       let compiled := pyStrip session0.transcript ++ "\n\nASSISTANT:"
       let reply := pyStrip (llm.generate compiled)
       ask st gem oll store prompt sel session_id memory mm kl ws =
         (.ok ⟨pn, reply, session_id⟩,
          ⟨store.log ++ [userMsg, ⟨Role.assistant, reply⟩], store.summary⟩,
          [Event.getSummary sid, Event.getLastMessages sid st.fetch_last_n,
           Event.generate pn compiled,
           Event.appendMessages sid [userMsg, ⟨Role.assistant, reply⟩]])) := by
  rw [ask_eq_of_provider st gem oll store prompt sel session_id memory mm kl ws pn llm hp]
  dsimp only
  split
  next h =>
    simp only [askWithProvider, hmem, hsid, h, List.append_assoc, List.cons_append,
      List.nil_append, List.append_nil]
    simp [h, List.append_assoc]
  next h =>
    simp only [askWithProvider, hmem, hsid]
    simp [h, List.append_assoc]

/-- C3 witness: a concrete rolling-mode run over the threshold (estimate
13 > threshold 1): the trace is fetch, `summarize`, `setSummary` with the
new summary, `trimMessages` with the effective `keep_last` 1, generate,
append; the store's summary is overwritten and its log trimmed. -/
theorem ask_rolling_threshold_gate_witness :
    ask ⟨"key", "gemini", "rolling", 10, 1, 1, 1, 10⟩ gemMock echoProvider
        ⟨[⟨Role.user, "aaaa"⟩, ⟨Role.assistant, "bbbb"⟩], ""⟩ "cccc" "ollama" (some "s")
        (some "rolling") none none none =
      (.ok ⟨"ollama",
            "SUMMARY SO FAR:\nSUM(USER: aaaa\nASSISTANT: bbbb)\nRECENT MESSAGES:\nUSER: cccc\n\nASSISTANT:",
            some "s"⟩,
       ⟨[⟨Role.assistant, "bbbb"⟩, ⟨Role.user, "cccc"⟩,
         ⟨Role.assistant,
          "SUMMARY SO FAR:\nSUM(USER: aaaa\nASSISTANT: bbbb)\nRECENT MESSAGES:\nUSER: cccc\n\nASSISTANT:"⟩],
        "SUM(USER: aaaa\nASSISTANT: bbbb)"⟩,
       [Event.getSummary "s", Event.getLastMessages "s" 10,
        Event.summarize "ollama" "USER: aaaa\nASSISTANT: bbbb",
        Event.setSummary "s" "SUM(USER: aaaa\nASSISTANT: bbbb)",
        Event.trimMessages "s" 1,
        Event.generate "ollama"
          "SUMMARY SO FAR:\nSUM(USER: aaaa\nASSISTANT: bbbb)\nRECENT MESSAGES:\nUSER: cccc\n\nASSISTANT:",
        Event.appendMessages "s"
          [⟨Role.user, "cccc"⟩,
           ⟨Role.assistant,
            "SUMMARY SO FAR:\nSUM(USER: aaaa\nASSISTANT: bbbb)\nRECENT MESSAGES:\nUSER: cccc\n\nASSISTANT:"⟩]]) := by
  have h := ask_rolling_threshold_gate ⟨"key", "gemini", "rolling", 10, 1, 1, 1, 10⟩
    gemMock echoProvider ⟨[⟨Role.user, "aaaa"⟩, ⟨Role.assistant, "bbbb"⟩], ""⟩ "cccc" "ollama"
    (some "s") (some "rolling") none none none "ollama" echoProvider rfl rfl rfl
  dsimp only at h
  rw [if_pos (by decide)] at h
  exact h.trans (by decide)

/-- C5: window mode with a session id, a store of 12 messages, effective
`window_size` 5 and fetch-N at least 5: after `ask`, the store's log is
exactly the 5 most recent entries — the new user+assistant pair plus the 3
most recent prior messages (`log.drop 9`) — because the log is trimmed to
the window size after the append; and the transcript sent to `generate` is
built from exactly the 5-message window `log.drop 8 ++ [user]`, i.e. the 4
most recent prior messages plus (and including) the new user message. -/
theorem ask_window_scenario (st : Settings) (gem oll : Provider) (store : SessionState)
    (prompt sel : String) (sid0 : String) (mm kl ws : Option Int) (pn : String) (llm : Provider)
    (hp : get_provider st gem oll sel = .ok (pn, llm))
    (hsid : sid0 ≠ "")
    (hlen : store.log.length = 12)
    (hfetch : 5 ≤ st.fetch_last_n)
    (hws : pyOrInt ws st.window_size = 5) :
    (let u : Message := ⟨Role.user, prompt⟩
     let windowMsgs := store.log.drop 8 ++ [u]
     let compiled :=
       pyStrip (ChatSession.transcript ⟨get_summary store.summary, windowMsgs⟩) ++ "\n\nASSISTANT:"
     let reply := pyStrip (llm.generate compiled)
     ask st gem oll store prompt sel (some sid0) (some "window") mm kl ws =
       (.ok ⟨pn, reply, some sid0⟩,
        ⟨store.log.drop 9 ++ [u, ⟨Role.assistant, reply⟩], store.summary⟩,
        [Event.getSummary sid0, Event.getLastMessages sid0 st.fetch_last_n,
         Event.generate pn compiled,
         Event.appendMessages sid0 [u, ⟨Role.assistant, reply⟩],
         Event.trimMessages sid0 5])) := by
  rw [ask_eq_of_provider st gem oll store prompt sel (some sid0) (some "window") mm kl ws pn llm hp]
  have hmem : resolveMemory (some "window") st = "window" := by
    simp [resolveMemory, pyOrStr]
  have hsidf : sessionIdFalsy (some sid0) = false := by
    simp [sessionIdFalsy, hsid]
  have hgl : get_last_messages store.log st.fetch_last_n =
      store.log.drop (store.log.length - st.fetch_last_n.toNat) :=
    get_last_messages_pos store.log st.fetch_last_n (by omega)
  have hwin : apply_sliding_window
      ⟨get_summary store.summary,
       store.log.drop (store.log.length - st.fetch_last_n.toNat) ++ [⟨Role.user, prompt⟩]⟩ 5 =
      ⟨get_summary store.summary, store.log.drop 8 ++ [⟨Role.user, prompt⟩]⟩ :=
    window5 store.log ⟨Role.user, prompt⟩ (get_summary store.summary)
      (store.log.length - st.fetch_last_n.toNat) (by omega) hlen
  have htrim : ∀ (u a : Message),
      trim_messages (store.log ++ [u, a]) 5 = store.log.drop 9 ++ [u, a] :=
    fun u a => trim14to5 store.log u a hlen
  simp only [askWithProvider, hmem, hsidf, hgl, hws, hwin, htrim]
  simp [List.append_assoc, htrim]

/-- C5 witness: the spec's concrete scenario — 12 stored messages,
`window_size` override 5, fetch-N 10, prompt `"hi"` — yields a store log
of exactly the pair plus the 3 most recent priors, and a `generate` call
on the 5-message window's transcript. -/
theorem ask_window_scenario_witness :
    ask ⟨"key", "gemini", "rolling", 10, 4000, 10, 4, 10⟩ gemMock echoProvider
        ⟨[⟨Role.user, "m1"⟩, ⟨Role.assistant, "m2"⟩, ⟨Role.user, "m3"⟩, ⟨Role.assistant, "m4"⟩,
          ⟨Role.user, "m5"⟩, ⟨Role.assistant, "m6"⟩, ⟨Role.user, "m7"⟩, ⟨Role.assistant, "m8"⟩,
          ⟨Role.user, "m9"⟩, ⟨Role.assistant, "m10"⟩, ⟨Role.user, "m11"⟩, ⟨Role.assistant, "m12"⟩],
         ""⟩ "hi" "ollama" (some "s") (some "window") none none (some 5) =
      (.ok ⟨"ollama",
            "RECENT MESSAGES:\nUSER: m9\nASSISTANT: m10\nUSER: m11\nASSISTANT: m12\nUSER: hi\n\nASSISTANT:",
            some "s"⟩,
       ⟨[⟨Role.assistant, "m10"⟩, ⟨Role.user, "m11"⟩, ⟨Role.assistant, "m12"⟩, ⟨Role.user, "hi"⟩,
         ⟨Role.assistant,
          "RECENT MESSAGES:\nUSER: m9\nASSISTANT: m10\nUSER: m11\nASSISTANT: m12\nUSER: hi\n\nASSISTANT:"⟩],
        ""⟩,
       [Event.getSummary "s", Event.getLastMessages "s" 10,
        Event.generate "ollama"
          "RECENT MESSAGES:\nUSER: m9\nASSISTANT: m10\nUSER: m11\nASSISTANT: m12\nUSER: hi\n\nASSISTANT:",
        Event.appendMessages "s"
          [⟨Role.user, "hi"⟩,
           ⟨Role.assistant,
            "RECENT MESSAGES:\nUSER: m9\nASSISTANT: m10\nUSER: m11\nASSISTANT: m12\nUSER: hi\n\nASSISTANT:"⟩],
        Event.trimMessages "s" 5]) := by
  have h := ask_window_scenario ⟨"key", "gemini", "rolling", 10, 4000, 10, 4, 10⟩
    gemMock echoProvider
    ⟨[⟨Role.user, "m1"⟩, ⟨Role.assistant, "m2"⟩, ⟨Role.user, "m3"⟩, ⟨Role.assistant, "m4"⟩,
      ⟨Role.user, "m5"⟩, ⟨Role.assistant, "m6"⟩, ⟨Role.user, "m7"⟩, ⟨Role.assistant, "m8"⟩,
      ⟨Role.user, "m9"⟩, ⟨Role.assistant, "m10"⟩, ⟨Role.user, "m11"⟩, ⟨Role.assistant, "m12"⟩],
     ""⟩ "hi" "ollama" "s" none none (some 5) "ollama" echoProvider rfl
    (by decide) (by decide) (by decide) (by decide)
  exact h.trans (by decide)

/-- C9 witness: a whitespace-only input maps to 0, and extension does not
decrease the estimate, at concrete inputs. -/
theorem estimate_tokens_spec_witness :
    estimate_tokens "  " = 0 ∧ estimate_tokens "ab" ≤ estimate_tokens ("ab" ++ "cdefgh") :=
  ⟨estimate_tokens_spec.1 "  " (by decide),
   estimate_tokens_spec.2.2 "ab" "cdefgh"⟩

end Chatbot
